import Mathlib

/-!
Verification development for the Telegram study-bot (`bot.py`).

The bot's pure decision logic is embedded shallowly:
* timestamps (Python `time()` floats / `datetime`) become `Rat`;
* platform ids become `Int`;
* the per-user rate-limit map (`context.application.bot_data["rate_limits"]`,
  a dict with default `0` via `rate_limits.get(user_id, 0)`) becomes a total
  function `Int → Rat` whose default value is `0`;
* the Telegram / MongoDB / Groq collaborators become explicit parameters
  (a provider function for the completion call, a failure-injection
  predicate for broadcast sends, association lists for the two Mongo
  collections).
-/

/-! ### String helpers (Python `needle in hay` substring test) -/

/-- `leadsWith needle hay` is Python-style "hay starts with needle"
on character lists. -/
def leadsWith : List Char → List Char → Bool
  | [], _ => true
  | _ :: _, [] => false
  | a :: as, b :: bs => a == b && leadsWith as bs

/-- Substring occurrence on character lists, matching Python `needle in hay`. -/
def containsSub : List Char → List Char → Bool
  | [], needle => needle.isEmpty
  | h :: t, needle => leadsWith needle (h :: t) || containsSub t needle

/-- Python `needle in hay` for strings. -/
def strContainsStr (hay needle : String) : Bool :=
  containsSub hay.toList needle.toList

/-- Python `str.lower()` (ASCII case folding, the relevant range for bot
handles and commands). -/
def strLower (s : String) : String :=
  ⟨s.toList.map Char.toLower⟩

/-- Whitespace characters removed by Python `str.strip()`. -/
def isSpaceChar (c : Char) : Bool :=
  c == ' ' || c == '\t' || c == '\n' || c == '\r' || c == '\x0b' || c == '\x0c'

/-- Python `str.strip()`: drop leading and trailing whitespace. -/
def strTrim (s : String) : String :=
  ⟨((s.toList.dropWhile isSpaceChar).reverse.dropWhile isSpaceChar).reverse⟩

/-! ### Rate limiter (`check_spam`, bot.py lines 54-62) -/

/-- Embedding of `check_spam(user_id, context)`.  The mutable dict is made
explicit: the function returns the remaining-seconds value together with the
(possibly updated) map.  `rate_limits.get(user_id, 0)` is modelled by the map
being total with default `0` supplied by the caller's state. -/
def check_spam (cooldown : Rat) (user_id : Int) (now_ts : Rat)
    (rate_limits : Int → Rat) : Rat × (Int → Rat) :=
  let last := rate_limits user_id
  let diff := now_ts - last
  if diff < cooldown then (cooldown - diff, rate_limits)
  else (0, fun u => if u = user_id then now_ts else rate_limits u)

/-- Python `int()` applied to a float: truncation toward zero. -/
def pyInt (q : Rat) : Int :=
  if 0 ≤ q then q.floor else q.ceil

/-- The cooldown notice string `f"Thoda dheere pucho, {int(left)} sec baad try
karo."` used verbatim in `handle_message` and in every study command. -/
def cooldown_notice (remaining : Rat) : String :=
  "Thoda dheere pucho, " ++ toString (pyInt remaining) ++ " sec baad try karo."

/-! ### Completion gateway (`ask_ai`, bot.py lines 64-88) -/

/-- The `system_map` dict in `ask_ai`, with `.get(mode, system_map["default"])`
semantics. -/
def system_map (mode : String) : String :=
  if mode = "notes" then "You are a teacher. Produce concise, bulleted notes for students."
  else if mode = "explain" then "You are a friendly teacher. Explain the concept in simple Hinglish with examples."
  else if mode = "mcq" then "Generate 5 MCQs for the topic. Provide options A-D and an Answer Key at the end."
  else if mode = "summary" then "Summarize the text into concise bullet points for students."
  else if mode = "solve" then "Solve the math/logic problem step-by-step and show final answer."
  else if mode = "quiz" then "Create a 5-question quiz (mix of MCQ/short). Provide answer key."
  else if mode = "current" then "Create practice-style current affairs Q&A for students."
  else "You are a helpful AI assistant that answers clearly in Hinglish."

/-- Embedding of `ask_ai(prompt, mode)`.  The Groq client call is the external
collaborator `provider`, taking the system instruction and the user prompt and
either returning the completion text (`Except.ok`) or failing with any
exception (`Except.error`).  The `try/except` of the source catches every
failure and returns the constant fallback string. -/
def ask_ai (provider : String → String → Except String String)
    (prompt : String) (mode : String) : String :=
  match provider (system_map mode) prompt with
  | Except.ok content => strTrim content
  | Except.error _ => "AI side pe error aa gaya. Thodi der baad try karo."

/-! ### Chat registry (`register_chat`, bot.py lines 91-110) -/

/-- One document of the `users` / `groups` Mongo collections.  `username` is
only set by the users collection, `chatType` only by the groups collection. -/
structure ChatRecord where
  first_seen : Rat
  last_seen : Rat
  username : Option String
  chatType : Option String
  deriving Repr, DecidableEq

/-- Semantics of `collection.update_one(filter, update, upsert=True)` used by
`register_chat`: if a document matches the key, apply the `$set` part (`upd`)
to it; otherwise insert a fresh document built from both `$set` and
`$setOnInsert` (`ins`).  Both collections carry a unique index on the key, so
at most one document matches; mapping over all matches coincides with
`update_one` under that invariant. -/
def mongo_upsert (coll : List (Int × ChatRecord)) (key : Int)
    (upd : ChatRecord → ChatRecord) (ins : ChatRecord) :
    List (Int × ChatRecord) :=
  if coll.any (fun p => p.1 == key) then
    coll.map (fun p => if p.1 == key then (p.1, upd p.2) else p)
  else
    coll ++ [(key, ins)]

/-- The `db.users` upsert of `register_chat`: `$set {last_seen, username}`,
`$setOnInsert {first_seen}`. -/
def upsert_user (coll : List (Int × ChatRecord)) (user_id : Int) (now : Rat)
    (username : Option String) : List (Int × ChatRecord) :=
  mongo_upsert coll user_id
    (fun r => { r with last_seen := now, username := username })
    { first_seen := now, last_seen := now, username := username, chatType := none }

/-- The `db.groups` upsert of `register_chat`: `$set {last_seen, type}`,
`$setOnInsert {first_seen}`. -/
def upsert_group (coll : List (Int × ChatRecord)) (chat_id : Int) (now : Rat)
    (chat_type : String) : List (Int × ChatRecord) :=
  mongo_upsert coll chat_id
    (fun r => { r with last_seen := now, chatType := some chat_type })
    { first_seen := now, last_seen := now, username := none, chatType := some chat_type }

/-- The two Mongo collections touched by `register_chat`. -/
structure BotDb where
  users : List (Int × ChatRecord)
  groups : List (Int × ChatRecord)
  deriving Repr, DecidableEq

/-- Embedding of `register_chat(chat_id, chat_type, context, user_obj)` on the
reachable-store path (the `try` body; the in-memory fallback of the `except`
arm models `StoreUnavailable` and is outside the registry claims). -/
def register_chat (db : BotDb) (chat_id : Int) (chat_type : String) (now : Rat)
    (username : Option String) : BotDb :=
  if chat_type = "private" then
    { db with users := upsert_user db.users chat_id now username }
  else
    { db with groups := upsert_group db.groups chat_id now chat_type }

/-- The collection `register_chat` routes a given `chat_type` to. -/
def collFor (db : BotDb) (chat_type : String) : List (Int × ChatRecord) :=
  if chat_type = "private" then db.users else db.groups

/-! ### Message router (`handle_message`, bot.py lines 334-368) -/

/-- The bot's own identity as seen by the router (`context.bot`). -/
structure BotInfo where
  username : Option String
  id : Int

/-- The effective chat of the update. -/
structure ChatInfo where
  id : Int
  chatType : String

/-- The inbound text message: its text, and the sender id / text of the
replied-to message when present. -/
structure MessageInfo where
  text : String
  replyToFromId : Option Int
  replyToText : Option String

/-- Terminal outcome of one router invocation.  `silent` produces no outbound
message; `notice` produces exactly one reply with the given text and no
completion-gateway call; `answered prompt mode` produces exactly one reply
whose text is the gateway's answer for `(prompt, mode)`. -/
inductive RouterOutcome
  | silent
  | notice (text : String)
  | answered (prompt : String) (mode : String)
  deriving Repr, DecidableEq

/-- `mentioned = bot_username and f"@{bot_username.lower()}" in text.lower()`
(bot.py line 348), as a boolean of the already-stripped text. -/
def mentionedIn (bu : String) (text : String) : Bool :=
  (bu != "") && strContainsStr (strLower text) ("@" ++ strLower bu)

/-- `text.lower().strip() in {f"@{u}", f"/ai@{u}"}` (bot.py line 356). -/
def isBareMention (bu : String) (text : String) : Bool :=
  strTrim (strLower text) == "@" ++ strLower bu
    || strTrim (strLower text) == "/ai@" ++ strLower bu

/-- The tail of `handle_message` (bot.py lines 360-368): rate-limit check,
then the gateway call on the trimmed text in `"default"` mode.  The outcome
on rejection carries the unchanged map (`check_spam` does not write on
rejection); on acceptance it carries the marked map. -/
def rate_then_answer (cooldown : Rat) (fromId : Int) (text : String)
    (now : Rat) (st : Int → Rat) : RouterOutcome × (Int → Rat) :=
  if 0 < (check_spam cooldown fromId now st).1 then
    (RouterOutcome.notice (cooldown_notice (check_spam cooldown fromId now st).1),
     (check_spam cooldown fromId now st).2)
  else
    (RouterOutcome.answered text "default", (check_spam cooldown fromId now st).2)

/-- Embedding of `handle_message`.  Registration (`register_chat`) touches the
store, not the rate-limit state or the outcome, and is kept separate; the
function returns the terminal outcome together with the rate-limit map after
the call.  The `if not message or not message.text: return` guard is the empty
text case. -/
def handle_message (cooldown : Rat) (bot : BotInfo) (chat : ChatInfo)
    (fromId : Int) (msg : MessageInfo) (now : Rat) (st : Int → Rat) :
    RouterOutcome × (Int → Rat) :=
  if msg.text = "" then (RouterOutcome.silent, st)
  else if chat.chatType = "group" ∨ chat.chatType = "supergroup" then
    if ¬(mentionedIn (bot.username.getD "") (strTrim msg.text)
          || (msg.replyToFromId == some bot.id)) then
      (RouterOutcome.silent, st)
    else if mentionedIn (bot.username.getD "") (strTrim msg.text)
          && isBareMention (bot.username.getD "") (strTrim msg.text) then
      (RouterOutcome.notice "Mujhe mention ke saath apna question bhi likho. 🙂", st)
    else rate_then_answer cooldown fromId (strTrim msg.text) now st
  else rate_then_answer cooldown fromId (strTrim msg.text) now st

/-! ### Study commands (bot.py lines 209-295) -/

/-- `" ".join(context.args).strip()`. -/
def joinedArgs (args : List String) : String :=
  strTrim (String.intercalate " " args)

/-- Embedding of `notes_command` after registration: usage check, rate limit,
gateway call. -/
def notes_command (cooldown : Rat) (uid : Int) (args : List String) (now : Rat)
    (st : Int → Rat) : RouterOutcome × (Int → Rat) :=
  if joinedArgs args = "" then (RouterOutcome.notice "Usage: /notes <topic>", st)
  else if 0 < (check_spam cooldown uid now st).1 then
    (RouterOutcome.notice (cooldown_notice (check_spam cooldown uid now st).1),
     (check_spam cooldown uid now st).2)
  else
    (RouterOutcome.answered
      ("Topic: " ++ joinedArgs args ++ "\nCreate short, structured notes for a student.")
      "notes", (check_spam cooldown uid now st).2)

/-- Embedding of `summary_command` after registration.  `replyText` is the
text of the replied-to message when one exists and carries text (Python's
`update.message.reply_to_message.text`, `None` otherwise). -/
def summary_command (cooldown : Rat) (uid : Int) (args : List String)
    (replyText : Option String) (now : Rat) (st : Int → Rat) :
    RouterOutcome × (Int → Rat) :=
  let text := if joinedArgs args = "" then replyText.getD "" else joinedArgs args
  if text = "" then
    (RouterOutcome.notice "Usage: /summary <text> (or reply to a message with /summary)", st)
  else if 0 < (check_spam cooldown uid now st).1 then
    (RouterOutcome.notice (cooldown_notice (check_spam cooldown uid now st).1),
     (check_spam cooldown uid now st).2)
  else
    (RouterOutcome.answered ("Summarize this: " ++ text) "summary",
     (check_spam cooldown uid now st).2)

/-- Embedding of `quiz_command` after registration: the empty argument falls
back to `"general knowledge"` (`... .strip() or "general knowledge"`), and the
rate limiter is consulted before the gateway call. -/
def quiz_command (cooldown : Rat) (uid : Int) (args : List String) (now : Rat)
    (st : Int → Rat) : RouterOutcome × (Int → Rat) :=
  let topic := if joinedArgs args = "" then "general knowledge" else joinedArgs args
  if 0 < (check_spam cooldown uid now st).1 then
    (RouterOutcome.notice (cooldown_notice (check_spam cooldown uid now st).1),
     (check_spam cooldown uid now st).2)
  else
    (RouterOutcome.answered ("Create a 5-question quiz: " ++ topic) "quiz",
     (check_spam cooldown uid now st).2)

/-! ### Owner commands (bot.py lines 298-331) -/

/-- Result of the broadcast loop (bot.py lines 317-327): the two counters and
the ordered list of attempted recipients. -/
structure BroadcastRun where
  sent : Nat
  failed : Nat
  attempts : List Int
  deriving Repr, DecidableEq

/-- The `async for u in cursor` loop of `broadcast_command`: one send attempt
per target id, in order; a failing send (`send_fails uid = true`, the
`except` arm) increments `failed` and the loop continues; a successful one
increments `sent`. -/
def broadcast_run (send_fails : Int → Bool) : List Int → BroadcastRun
  | [] => { sent := 0, failed := 0, attempts := [] }
  | uid :: rest =>
    let r := broadcast_run send_fails rest
    if send_fails uid then
      { sent := r.sent, failed := r.failed + 1, attempts := uid :: r.attempts }
    else
      { sent := r.sent + 1, failed := r.failed, attempts := uid :: r.attempts }

/-- Observable effects of one owner-command invocation: whether the database
was read, which outbound per-user sends were attempted, and the reply to the
invoker (if any). -/
structure OwnerCmdOutput where
  dbRead : Bool
  attempts : List Int
  reply : Option String
  deriving Repr, DecidableEq

/-- Embedding of `broadcast_command` on the reachable-store path: the owner
check (`update.effective_user.id != OWNER_ID: return`), the argument /
reply-to fallback, then the loop over `db.users`. -/
def broadcast_command (ownerId callerId : Int) (args : List String)
    (replyText : Option String) (userIds : List Int)
    (send_fails : Int → Bool) : OwnerCmdOutput :=
  if callerId ≠ ownerId then { dbRead := false, attempts := [], reply := none }
  else
    let text0 := joinedArgs args
    let text := if text0 = "" then replyText.getD "" else text0
    if text = "" then
      { dbRead := false, attempts := [],
        reply := some "Usage: /broadcast <message> (or reply to a message and /broadcast)" }
    else
      let r := broadcast_run send_fails userIds
      { dbRead := true, attempts := r.attempts,
        reply := some ("Broadcast complete. Sent: " ++ toString r.sent
          ++ ", Failed: " ++ toString r.failed) }

/-- Embedding of `stats_command`: owner check, then the two `count_documents`
reads (`dbOk = false` is the `except` arm reporting a DB error). -/
def stats_command (ownerId callerId : Int) (usersCount groupsCount : Nat)
    (dbOk : Bool) : OwnerCmdOutput :=
  if callerId ≠ ownerId then { dbRead := false, attempts := [], reply := none }
  else if dbOk then
    { dbRead := true, attempts := [],
      reply := some ("📊 Bot Stats:\n• Total private users: " ++ toString usersCount
        ++ "\n• Total groups: " ++ toString groupsCount) }
  else
    { dbRead := true, attempts := [], reply := some "DB error while fetching stats." }

/-! ### Sanity examples -/

example : (check_spam 5 42 100 (fun _ => 0)).1 = 0 := by norm_num [check_spam]
example : (check_spam 5 42 (102 : Rat) ((check_spam 5 42 100 (fun _ => 0)).2)).1 = 3 := by
  norm_num [check_spam]
example : strContainsStr "hello @studybot there" "@studybot" = true := by decide
example : mentionedIn "studybot" "@StudyBot hi" = true := by decide
example : isBareMention "studybot" " @StudyBot " = true := by decide
example : strTrim "  ab c  " = "ab c" := by decide
example : joinedArgs [] = "" := by decide
example : joinedArgs ["a", "b"] = "a b" := by decide
example : pyInt (17/5) = 3 := by norm_num [pyInt, Rat.floor]
example : cooldown_notice (17/5) = "Thoda dheere pucho, 3 sec baad try karo." := by
  have h : pyInt (17/5) = 3 := by norm_num [pyInt, Rat.floor]
  rw [cooldown_notice, h]
  decide

/-! ### Helper lemmas about `check_spam` -/

/-- Acceptance means the stored timestamp was not within the cooldown
window. -/
theorem check_spam_accept_cond (cooldown : Rat) (u : Int) (t : Rat)
    (st : Int → Rat) (hacc : (check_spam cooldown u t st).1 = 0) :
    ¬ (t - st u < cooldown) := by
  intro h
  have : (check_spam cooldown u t st).1 = cooldown - (t - st u) := by
    simp [check_spam, h]
  rw [this] at hacc
  linarith

/-- On acceptance the map is overwritten at the accepted user with the
acceptance time. -/
theorem check_spam_accept_state (cooldown : Rat) (u : Int) (t : Rat)
    (st : Int → Rat) (hacc : (check_spam cooldown u t st).1 = 0) :
    (check_spam cooldown u t st).2 = fun v => if v = u then t else st v := by
  have h := check_spam_accept_cond cooldown u t st hacc
  simp [check_spam, h]

/-- The returned remaining-seconds value depends on the sender only through
the stored timestamp. -/
theorem check_spam_fst_congr (cooldown : Rat) (f1 f2 : Int) (t : Rat)
    (st : Int → Rat) (h : st f1 = st f2) :
    (check_spam cooldown f1 t st).1 = (check_spam cooldown f2 t st).1 := by
  simp only [check_spam, h]
  split <;> rfl

/-- The router's answer tail treats two senders with equal stored timestamps
identically (outcome component). -/
theorem rate_then_answer_fst_congr (cooldown : Rat) (f1 f2 : Int)
    (text : String) (now : Rat) (st : Int → Rat) (h : st f1 = st f2) :
    (rate_then_answer cooldown f1 text now st).1
      = (rate_then_answer cooldown f2 text now st).1 := by
  have hc := check_spam_fst_congr cooldown f1 f2 now st h
  unfold rate_then_answer
  rw [hc]
  split <;> rfl

/-! ### Claim theorems -/

/-- Claim C1: if `check_spam` accepts user `u` at `t1`, then at any `t2 > t1`
within the cooldown the interaction is rejected with remaining seconds
`cooldown - (t2 - t1)`, and at any `t2` at least `cooldown` later it is
accepted again with `t2` stored as the new last-accepted timestamp. -/
theorem check_spam_cooldown_window (cooldown t1 t2 : Rat) (u : Int)
    (st : Int → Rat) (_hlt : t1 < t2)
    (hacc : (check_spam cooldown u t1 st).1 = 0) :
    (t2 - t1 < cooldown →
      (check_spam cooldown u t2 (check_spam cooldown u t1 st).2).1
        = cooldown - (t2 - t1))
    ∧ (cooldown ≤ t2 - t1 →
      (check_spam cooldown u t2 (check_spam cooldown u t1 st).2).1 = 0
      ∧ (check_spam cooldown u t2 (check_spam cooldown u t1 st).2).2 u = t2) := by
  have hsnap := check_spam_accept_state cooldown u t1 st hacc
  rw [hsnap]
  constructor
  · intro h2
    simp [check_spam, h2]
  · intro h2
    have h3 : ¬ (t2 - t1 < cooldown) := not_lt.mpr h2
    constructor
    · simp [check_spam, h3]
    · simp [check_spam, h3]

/-- Witness for C1: with cooldown 5, acceptance at `t1 = 100` and a retry at
`t2 = 102` the retry is rejected with 3 seconds remaining. -/
theorem check_spam_cooldown_window_witness :
    (check_spam 5 42 102 ((check_spam 5 42 100 (fun _ => 0)).2)).1
      = 5 - (102 - 100) :=
  (check_spam_cooldown_window 5 100 102 42 (fun _ => 0) (by norm_num)
    (by norm_num [check_spam])).1 (by norm_num)

/-- Claim C5: the broadcast loop attempts every target in list order and
returns `sent = N - k`, `failed = k` when exactly `k` of the `N` sends
fail; no failure aborts the iteration. -/
theorem broadcast_accounting (send_fails : Int → Bool) (targets : List Int) :
    (broadcast_run send_fails targets).attempts = targets
    ∧ (broadcast_run send_fails targets).failed
        = (targets.filter (fun u => send_fails u)).length
    ∧ (broadcast_run send_fails targets).sent
        = targets.length - (targets.filter (fun u => send_fails u)).length
    ∧ (broadcast_run send_fails targets).sent
        + (broadcast_run send_fails targets).failed = targets.length := by
  induction targets with
  | nil => simp [broadcast_run]
  | cons uid rest ih =>
    obtain ⟨ha, hf, hs, ht⟩ := ih
    by_cases h : send_fails uid <;>
      refine ⟨?_, ?_, ?_, ?_⟩ <;>
        simp [broadcast_run, h, ha, hf, hs, List.filter_cons] <;> omega

/-- Claim C6: `ask_ai` is total — it returns the provider's (trimmed) result
text on success and the constant fallback string on any provider fault; it
never propagates a failure. -/
theorem ask_ai_never_fails (provider : String → String → Except String String)
    (prompt mode : String) :
    (∃ t, provider (system_map mode) prompt = Except.ok t
      ∧ ask_ai provider prompt mode = strTrim t)
    ∨ ask_ai provider prompt mode
        = "AI side pe error aa gaya. Thodi der baad try karo." := by
  cases h : provider (system_map mode) prompt with
  | ok t => exact Or.inl ⟨t, rfl, by simp [ask_ai, h]⟩
  | error e => exact Or.inr (by simp [ask_ai, h])

/-- Claim C9: a non-operator invoking `/broadcast` or `/stats` gets no reply
and causes no effect: no database read, no send attempt. -/
theorem owner_only_silent (ownerId callerId : Int) (args : List String)
    (replyText : Option String) (userIds : List Int) (send_fails : Int → Bool)
    (usersCount groupsCount : Nat) (dbOk : Bool)
    (h : callerId ≠ ownerId) :
    broadcast_command ownerId callerId args replyText userIds send_fails
      = { dbRead := false, attempts := [], reply := none }
    ∧ stats_command ownerId callerId usersCount groupsCount dbOk
      = { dbRead := false, attempts := [], reply := none } := by
  constructor <;> simp [broadcast_command, stats_command, h]

/-- Witness for C9: caller 7 on owner 1 leaves both commands without output
or effect. -/
theorem owner_only_silent_witness :
    broadcast_command 1 7 ["hi"] none [3, 4] (fun _ => false)
      = { dbRead := false, attempts := [], reply := none }
    ∧ stats_command 1 7 10 2 true
      = { dbRead := false, attempts := [], reply := none } :=
  owner_only_silent 1 7 ["hi"] none [3, 4] (fun _ => false) 10 2 true
    (by decide)

/-! ### Registry lemmas (for C7) -/

/-- Upserting an absent key inserts the `$setOnInsert ∪ $set` document at the
end. -/
theorem mongo_upsert_absent (coll : List (Int × ChatRecord)) (key : Int)
    (upd : ChatRecord → ChatRecord) (ins : ChatRecord)
    (h : ∀ p ∈ coll, p.1 ≠ key) :
    mongo_upsert coll key upd ins = coll ++ [(key, ins)] := by
  unfold mongo_upsert
  have hany : coll.any (fun p => p.1 == key) = false := by
    simp only [List.any_eq_false, beq_iff_eq]
    exact h
  simp [hany]

/-- Upserting a key present exactly once (at the end, all other keys
different) applies only the `$set` part to that document. -/
theorem mongo_upsert_present (coll : List (Int × ChatRecord)) (key : Int)
    (upd : ChatRecord → ChatRecord) (ins : ChatRecord) (r : ChatRecord)
    (h : ∀ p ∈ coll, p.1 ≠ key) :
    mongo_upsert (coll ++ [(key, r)]) key upd ins
      = coll ++ [(key, upd r)] := by
  unfold mongo_upsert
  have hany : (coll ++ [(key, r)]).any (fun p => p.1 == key) = true := by
    simp
  rw [hany]
  simp only [if_true, List.map_append]
  have hcoll : coll.map
      (fun p => if p.1 == key then (p.1, upd p.2) else p) = coll := by
    conv_rhs => rw [← List.map_id coll]
    apply List.map_congr_left
    intro p hp
    simp [h p hp]
  rw [hcoll]
  simp

/-- Two consecutive upserts on an absent key leave the collection extended by
one document: the first call's insert image updated by the second call's
`$set`. -/
theorem mongo_upsert_twice (coll : List (Int × ChatRecord)) (key : Int)
    (upd1 : ChatRecord → ChatRecord) (ins1 : ChatRecord)
    (upd2 : ChatRecord → ChatRecord) (ins2 : ChatRecord)
    (h : ∀ p ∈ coll, p.1 ≠ key) :
    mongo_upsert (mongo_upsert coll key upd1 ins1) key upd2 ins2
      = coll ++ [(key, upd2 ins1)] := by
  rw [mongo_upsert_absent coll key upd1 ins1 h]
  rw [mongo_upsert_present coll key upd2 ins2 ins1 h]

/-- A one-longer collection whose old part avoids the key has exactly one
document filtered at that key. -/
theorem filter_key_append_one (coll : List (Int × ChatRecord)) (key : Int)
    (r : ChatRecord) (h : ∀ p ∈ coll, p.1 ≠ key) :
    ((coll ++ [(key, r)]).filter (fun p => p.1 == key)).length = 1 := by
  rw [List.filter_append]
  have h0 : coll.filter (fun p => p.1 == key) = [] := by
    rw [List.filter_eq_nil_iff]
    intro p hp
    simp [h p hp]
  rw [h0]
  simp

/-- Claim C7: registering the same `(id, kind)` twice (any display names,
timestamps `t1` then `t2`) leaves exactly one record for that key, whose
`first_seen` is the first call's timestamp and whose `last_seen` is the
second call's timestamp. -/
theorem register_chat_idempotent (db : BotDb) (id : Int) (kind : String)
    (t1 t2 : Rat) (u1 u2 : Option String)
    (h : ∀ p ∈ collFor db kind, p.1 ≠ id) :
    ∃ r : ChatRecord,
      collFor (register_chat (register_chat db id kind t1 u1) id kind t2 u2) kind
        = collFor db kind ++ [(id, r)]
      ∧ r.first_seen = t1 ∧ r.last_seen = t2
      ∧ ((collFor (register_chat (register_chat db id kind t1 u1) id kind t2 u2)
            kind).filter (fun p => p.1 == id)).length = 1 := by
  by_cases hk : kind = "private"
  · subst hk
    have hcoll : collFor db "private" = db.users := rfl
    rw [hcoll] at h
    have heq : collFor
        (register_chat (register_chat db id "private" t1 u1) id "private" t2 u2)
        "private"
        = db.users ++
          [(id, { first_seen := t1, last_seen := t2, username := u2, chatType := none })] :=
      mongo_upsert_twice db.users id
        (fun r => { r with last_seen := t1, username := u1 })
        { first_seen := t1, last_seen := t1, username := u1, chatType := none }
        (fun r => { r with last_seen := t2, username := u2 })
        { first_seen := t2, last_seen := t2, username := u2, chatType := none } h
    refine ⟨{ first_seen := t1, last_seen := t2, username := u2, chatType := none },
      by rw [heq, hcoll], rfl, rfl, ?_⟩
    rw [heq]
    exact filter_key_append_one db.users id _ h
  · have hcoll : collFor db kind = db.groups := if_neg hk
    rw [hcoll] at h
    have hreg : ∀ (d : BotDb) (t : Rat) (u : Option String),
        register_chat d id kind t u
          = { users := d.users, groups := upsert_group d.groups id t kind } := by
      intro d t u
      simp [register_chat, hk]
    have hcoll2 : ∀ (us l : List (Int × ChatRecord)),
        collFor { users := us, groups := l } kind = l := by
      intro us l
      exact if_neg hk
    have heq : collFor
        (register_chat (register_chat db id kind t1 u1) id kind t2 u2) kind
        = db.groups ++
          [(id, { first_seen := t1, last_seen := t2, username := none,
                  chatType := some kind })] := by
      rw [hreg db t1 u1]
      rw [hreg { users := db.users, groups := upsert_group db.groups id t1 kind } t2 u2]
      rw [hcoll2]
      exact mongo_upsert_twice db.groups id
        (fun r => { r with last_seen := t1, chatType := some kind })
        { first_seen := t1, last_seen := t1, username := none, chatType := some kind }
        (fun r => { r with last_seen := t2, chatType := some kind })
        { first_seen := t2, last_seen := t2, username := none, chatType := some kind } h
    refine ⟨{ first_seen := t1, last_seen := t2, username := none, chatType := some kind },
      by rw [heq, hcoll], rfl, rfl, ?_⟩
    rw [heq]
    exact filter_key_append_one db.groups id _ h

/-- Witness for C7: registering private chat 42 at times 1 then 2 into an
empty store yields one record with `first_seen = 1`, `last_seen = 2`. -/
theorem register_chat_idempotent_witness :
    ∃ r : ChatRecord,
      collFor (register_chat (register_chat ⟨[], []⟩ 42 "private" 1 (some "alice"))
          42 "private" 2 none) "private"
        = collFor (⟨[], []⟩ : BotDb) "private" ++ [(42, r)]
      ∧ r.first_seen = 1 ∧ r.last_seen = 2
      ∧ ((collFor (register_chat (register_chat ⟨[], []⟩ 42 "private" 1 (some "alice"))
            42 "private" 2 none) "private").filter (fun p => p.1 == 42)).length = 1 :=
  register_chat_idempotent ⟨[], []⟩ 42 "private" 1 2 (some "alice") none
    (by simp [collFor])

/-- Claim C8: a study command with a missing required argument (here
`/summary` with no argument and no replied-to text, and `/notes` with no
argument) replies with its usage hint, makes no gateway call, and leaves the
rate-limit map untouched. -/
theorem usage_error_no_charge (cooldown : Rat) (uid : Int) (args : List String)
    (replyText : Option String) (now : Rat) (st : Int → Rat)
    (hargs : joinedArgs args = "")
    (hreply : replyText.getD "" = "") :
    summary_command cooldown uid args replyText now st
      = (RouterOutcome.notice
          "Usage: /summary <text> (or reply to a message with /summary)", st)
    ∧ notes_command cooldown uid args now st
      = (RouterOutcome.notice "Usage: /notes <topic>", st) := by
  constructor
  · simp [summary_command, hargs, hreply]
  · simp [notes_command, hargs]

/-- Witness for C8: `/summary` and `/notes` invoked with no arguments and no
reply reply with their usage hints and change nothing. -/
theorem usage_error_no_charge_witness :
    summary_command 5 42 [] none 100 (fun _ => 0)
      = (RouterOutcome.notice
          "Usage: /summary <text> (or reply to a message with /summary)",
         (fun _ => 0))
    ∧ notes_command 5 42 [] 100 (fun _ => 0)
      = (RouterOutcome.notice "Usage: /notes <topic>", (fun _ => 0)) :=
  usage_error_no_charge 5 42 [] none 100 (fun _ => 0) (by decide) (by decide)

/-- Claim C10: `/quiz` with an empty argument is not a usage error — the
topic falls back to `"general knowledge"`, the rate limiter is consulted and
charged (on acceptance the sender's timestamp is overwritten with `now`),
and the gateway is invoked in `"quiz"` mode — unlike `/notes`, which replies
with its usage hint and leaves the limiter untouched. -/
theorem quiz_empty_arg_defaults (cooldown : Rat) (uid : Int) (now : Rat)
    (st : Int → Rat) (hacc : (check_spam cooldown uid now st).1 = 0) :
    quiz_command cooldown uid [] now st
      = (RouterOutcome.answered "Create a 5-question quiz: general knowledge" "quiz",
         (check_spam cooldown uid now st).2)
    ∧ (check_spam cooldown uid now st).2 uid = now
    ∧ notes_command cooldown uid [] now st
      = (RouterOutcome.notice "Usage: /notes <topic>", st) := by
  have hj : joinedArgs ([] : List String) = "" := by decide
  have hs : "Create a 5-question quiz: " ++ "general knowledge"
      = "Create a 5-question quiz: general knowledge" := by decide
  refine ⟨?_, ?_, ?_⟩
  · simp [quiz_command, hj, hacc, hs]
  · rw [check_spam_accept_state cooldown uid now st hacc]
    simp
  · simp [notes_command, hj]

/-- Witness for C10: an empty `/quiz` at time 100 on a fresh limiter answers
the default-topic quiz and stores 100 for user 42, while an empty `/notes`
is a usage error. -/
theorem quiz_empty_arg_defaults_witness :
    quiz_command 5 42 [] 100 (fun _ => 0)
      = (RouterOutcome.answered "Create a 5-question quiz: general knowledge" "quiz",
         (check_spam 5 42 100 (fun _ => 0)).2)
    ∧ (check_spam 5 42 100 (fun _ => 0)).2 42 = 100
    ∧ notes_command 5 42 [] 100 (fun _ => 0)
      = (RouterOutcome.notice "Usage: /notes <topic>", (fun _ => 0)) :=
  quiz_empty_arg_defaults 5 42 100 (fun _ => 0) (by norm_num [check_spam])

/-- Claim C2 counterexample: after an acceptance at `t = 100`, a retry at
`t = 101.6` is rejected with `17/5 = 3.4` seconds remaining, and the notice
reports `3` — Python `int()` truncation — not the claimed ceiling `4`. -/
theorem cooldown_notice_not_ceiling :
    (check_spam 5 42 (508/5) ((check_spam 5 42 100 (fun _ => 0)).2)).1 = 17/5
    ∧ cooldown_notice (17/5) = "Thoda dheere pucho, 3 sec baad try karo."
    ∧ ⌈(17 : Rat)/5⌉ = 4
    ∧ cooldown_notice (17/5)
        ≠ "Thoda dheere pucho, " ++ toString (4 : Int) ++ " sec baad try karo." := by
  have h3 : pyInt (17/5) = 3 := by norm_num [pyInt, Rat.floor]
  refine ⟨?_, ?_, ?_, ?_⟩
  · norm_num [check_spam]
  · rw [cooldown_notice, h3]
    decide
  · rw [Int.ceil_eq_iff]
    norm_num
  · rw [cooldown_notice, h3]
    decide

/-- Claim C2 (amended): every rate-limited rejection reports the integer
*truncation* of the remaining seconds (the floor, since the remaining value
is positive) — e.g. a remaining time of 3.4 seconds is reported as 3. -/
theorem cooldown_notice_reports_floor (cooldown : Rat) (u : Int) (now : Rat)
    (st : Int → Rat) (h : 0 < (check_spam cooldown u now st).1) :
    cooldown_notice ((check_spam cooldown u now st).1)
      = "Thoda dheere pucho, "
        ++ toString ((check_spam cooldown u now st).1).floor
        ++ " sec baad try karo." := by
  unfold cooldown_notice pyInt
  rw [if_pos (le_of_lt h)]

/-- Witness for the amended C2: the rejection at `t = 101.6` above reports
the floor of its remaining 3.4 seconds. -/
theorem cooldown_notice_reports_floor_witness :
    cooldown_notice ((check_spam 5 42 (508/5) ((check_spam 5 42 100 (fun _ => 0)).2)).1)
      = "Thoda dheere pucho, "
        ++ toString ((check_spam 5 42 (508/5) ((check_spam 5 42 100 (fun _ => 0)).2)).1).floor
        ++ " sec baad try karo." :=
  cooldown_notice_reports_floor 5 42 (508/5) ((check_spam 5 42 100 (fun _ => 0)).2)
    (by norm_num [check_spam])

/-- Claim C3 counterexample: a private-chat message whose sender is the bot's
own identity (`fromId = bot.id = 999`) is routed to the gateway and answered,
not terminated at Rejected-Silent — `handle_message` has no self-check. -/
theorem handle_message_self_not_silent :
    (handle_message 5 ⟨some "studybot", 999⟩ ⟨77, "private"⟩ 999
        ⟨"hello", none, none⟩ 100 (fun _ => 0)).1
      = RouterOutcome.answered "hello" "default"
    ∧ RouterOutcome.answered "hello" "default" ≠ RouterOutcome.silent := by
  constructor
  · have hacc : (check_spam 5 999 100 (fun _ => (0 : Rat))).1 = 0 := by
      norm_num [check_spam]
    have htrim : strTrim "hello" = "hello" := by decide
    simp [handle_message, rate_then_answer, hacc, htrim]
  · decide

/-- Claim C3 (amended): the router performs no self-identity check at all —
its outcome for a message from the bot's own identity is the outcome it
produces for the same message from any other sender with the same stored
rate-limit timestamp (in particular, a self-originated private message is
answered, not silently rejected). -/
theorem handle_message_no_self_check (cooldown : Rat) (bot : BotInfo)
    (chat : ChatInfo) (msg : MessageInfo) (now : Rat) (st : Int → Rat)
    (f1 f2 : Int) (h : st f1 = st f2) :
    (handle_message cooldown bot chat f1 msg now st).1
      = (handle_message cooldown bot chat f2 msg now st).1 := by
  unfold handle_message
  split_ifs <;>
    first
      | rfl
      | exact rate_then_answer_fst_congr cooldown f1 f2 (strTrim msg.text) now st h

/-- Witness for the amended C3: the bot-id sender 999 and the ordinary sender
42 receive the same outcome on a fresh limiter. -/
theorem handle_message_no_self_check_witness :
    (handle_message 5 ⟨some "studybot", 999⟩ ⟨77, "private"⟩ 999
        ⟨"hello", none, none⟩ 100 (fun _ => 0)).1
      = (handle_message 5 ⟨some "studybot", 999⟩ ⟨77, "private"⟩ 42
          ⟨"hello", none, none⟩ 100 (fun _ => 0)).1 :=
  handle_message_no_self_check 5 ⟨some "studybot", 999⟩ ⟨77, "private"⟩
    ⟨"hello", none, none⟩ 100 (fun _ => 0) 999 42 rfl

/-- Claim C4: in a group chat, a message with no case-insensitive mention of
the bot's handle and no reply-to-bot produces no outbound message and leaves
the rate-limit map unchanged; a message whose trimmed text is exactly the
bare mention token produces exactly the one ask-your-question notice, with
no gateway call and no rate-limit change for the sender. -/
theorem group_gating (cooldown : Rat) (bot : BotInfo) (chat : ChatInfo)
    (fromId : Int) (msg : MessageInfo) (now : Rat) (st : Int → Rat)
    (hg : chat.chatType = "group" ∨ chat.chatType = "supergroup") :
    (mentionedIn (bot.username.getD "") (strTrim msg.text) = false →
      (msg.replyToFromId == some bot.id) = false →
      handle_message cooldown bot chat fromId msg now st
        = (RouterOutcome.silent, st))
    ∧ (msg.text ≠ "" →
      mentionedIn (bot.username.getD "") (strTrim msg.text) = true →
      strTrim (strLower (strTrim msg.text)) = "@" ++ strLower (bot.username.getD "") →
      handle_message cooldown bot chat fromId msg now st
        = (RouterOutcome.notice "Mujhe mention ke saath apna question bhi likho. 🙂",
           st)) := by
  constructor
  · intro hm hr
    by_cases he : msg.text = ""
    · simp [handle_message, he]
    · unfold handle_message
      rw [if_neg he, if_pos hg, hm, hr]
      simp
  · intro hne hm hbare
    have hbm : isBareMention (bot.username.getD "") (strTrim msg.text) = true := by
      simp [isBareMention, hbare]
    unfold handle_message
    rw [if_neg hne, if_pos hg, hm, hbm]
    simp

/-- Witness for C4: in a group, "good morning all" is ignored silently and a
bare " @studybot " draws exactly the ask-your-question notice; the limiter
map is unchanged in both cases. -/
theorem group_gating_witness :
    handle_message 5 ⟨some "studybot", 999⟩ ⟨-50, "group"⟩ 42
        ⟨"good morning all", none, none⟩ 100 (fun _ => 0)
      = (RouterOutcome.silent, (fun _ => 0))
    ∧ handle_message 5 ⟨some "studybot", 999⟩ ⟨-50, "group"⟩ 42
        ⟨" @studybot ", none, none⟩ 100 (fun _ => 0)
      = (RouterOutcome.notice "Mujhe mention ke saath apna question bhi likho. 🙂",
         (fun _ => 0)) :=
  ⟨(group_gating 5 ⟨some "studybot", 999⟩ ⟨-50, "group"⟩ 42
      ⟨"good morning all", none, none⟩ 100 (fun _ => 0) (Or.inl rfl)).1
      (by decide) (by decide),
   (group_gating 5 ⟨some "studybot", 999⟩ ⟨-50, "group"⟩ 42
      ⟨" @studybot ", none, none⟩ 100 (fun _ => 0) (Or.inl rfl)).2
      (by decide) (by decide) (by decide)⟩
